import Mathlib

/-!
Verification development for the CL_guardmail mail-monitoring core.

The Python source (email_monitor.py, app.py) is shallowly embedded below.
Python strings are modelled as List Char; Python float arithmetic on the
small fixed scorer constants is modelled exactly over the rationals; the
SQLite table analyzed_emails is modelled as the list of its row keys
(account_id, email_id) in insertion order; timestamps are natural numbers
(scheduler clock values from app.py are rationals, since time.time is
real-valued there).  Python text functions (lower, isupper) are modelled
for ASCII text, which is where every claim under study lives.
-/

namespace Guardmail

/-- Python text.lower(), modelled on ASCII letters (non-ASCII characters
are left unchanged, as Char.toLower does). -/
def pyLower (text : List Char) : List Char := text.map Char.toLower

/-- Characters matched by the character class of the link regular
expression in _extract_spam_features: the alternation of a-z A-Z, 0-9,
the range from dollar (0x24) to underscore (0x5F) plus at-dot-ampersand-plus,
and the set bang star backslash parens comma.  The percent-hex-hex
alternative is subsumed because percent lies inside the 0x24..0x5F range. -/
def isUrlBodyChar (c : Char) : Bool :=
  ('a' ≤ c && c ≤ 'z') || (36 ≤ c.toNat && c.toNat ≤ 95) ||
    c == '!' || c == '*' || c == '\\' || c == '(' || c == ')' || c == ','

/-- Length of the greedy run of URL-body characters at the head of the list. -/
def urlBodyLen : List Char → Nat
  | [] => 0
  | c :: cs => if isUrlBodyChar c then urlBodyLen cs + 1 else 0

/-- Length of the match of the link pattern http, optional s, colon-slash-slash,
one or more body characters, at the head of the list; none when no match. -/
def matchUrlLen (cs : List Char) : Option Nat :=
  match cs with
  | 'h' :: 't' :: 't' :: 'p' :: rest =>
    match rest with
    | 's' :: ':' :: '/' :: '/' :: body =>
      let n := urlBodyLen body
      if n = 0 then none else some (8 + n)
    | ':' :: '/' :: '/' :: body =>
      let n := urlBodyLen body
      if n = 0 then none else some (7 + n)
    | _ => none
  | _ => none

/-- Leftmost non-overlapping scan counting link matches, as re.findall does.
The fuel argument bounds recursion; fuel equal to the list length suffices
because every step consumes at least one character. -/
def countLinksFuel : Nat → List Char → Nat
  | 0, _ => 0
  | _, [] => 0
  | fuel + 1, c :: cs =>
    match matchUrlLen (c :: cs) with
    | some n => countLinksFuel fuel ((c :: cs).drop n) + 1
    | none => countLinksFuel fuel cs

/-- Number of link-pattern matches in the content, as computed by
re.findall in _extract_spam_features. -/
def countLinks (content : List Char) : Nat := countLinksFuel content.length content

/-- Python slice xs[-k:]: the last k entries for positive k; for k = 0 the
slice is xs[0:], the whole list. -/
def pyLastSlice (k : Nat) (xs : List α) : List α :=
  if k = 0 then xs else xs.drop (xs.length - k)

/-- Urgent-word list of _extract_spam_features. -/
def urgentWordList : List (List Char) :=
  ["urgente".toList, "urgent".toList, "important".toList,
   "importante".toList, "actúa".toList, "actua".toList]

/-- Spam-word list of _extract_spam_features. -/
def spamWordList : List (List Char) :=
  ["gratis".toList, "free".toList, "gana".toList, "win".toList,
   "dinero".toList, "money".toList, "oferta".toList, "offer".toList]

/-- Suspicious-domain list of _check_suspicious_domain. -/
def suspiciousDomainList : List (List Char) :=
  ["spam.com".toList, "malware.com".toList, "virus.com".toList,
   "fake.com".toList, "suspicious.com".toList, "scam.com".toList,
   "phishing.com".toList]

/-- Does the first list occur at the head of the second? -/
def headMatch : List Char → List Char → Bool
  | [], _ => true
  | _ :: _, [] => false
  | a :: as, b :: bs => a == b && headMatch as bs

/-- Python substring containment, needle in haystack. -/
def containsSub (needle : List Char) : List Char → Bool
  | [] => headMatch needle []
  | c :: cs => headMatch needle (c :: cs) || containsSub needle cs

/-- _check_suspicious_domain: some listed domain occurs as a substring of
the lowercased sender. -/
def check_suspicious_domain (sender : List Char) : Bool :=
  suspiciousDomainList.any (fun d => containsSub d (pyLower sender))

/-- The feature dictionary built by _extract_spam_features. -/
structure FeatureVector where
  subject_length : Nat
  content_length : Nat
  total_length : Nat
  caps_ratio : ℚ
  exclamation_count : Nat
  question_count : Nat
  dollar_count : Nat
  urgent_words : Nat
  spam_words : Nat
  has_suspicious_domain : Bool
  has_many_links : Nat
  has_attachments : Bool
deriving DecidableEq, Repr

/-- _extract_spam_features.  The text analysed is the f-string joining
subject and content with one space, lowercased; the uppercase count, the
punctuation counts and the word counts are all taken over that lowered
text, and the link count over the raw content, exactly as in the source.
The attachment flag is passed in (computed upstream from the message). -/
def extract_spam_features (subject sender content : List Char)
    (has_att : Bool) : FeatureVector :=
  let full_text := pyLower (subject ++ [' '] ++ content)
  { subject_length := subject.length
    content_length := content.length
    total_length := full_text.length
    caps_ratio :=
      if full_text.length ≠ 0 then
        ((full_text.filter Char.isUpper).length : ℚ) / (full_text.length : ℚ)
      else 0
    exclamation_count := full_text.count '!'
    question_count := full_text.count '?'
    dollar_count := full_text.count '$'
    urgent_words := (urgentWordList.filter (fun w => containsSub w full_text)).length
    spam_words := (spamWordList.filter (fun w => containsSub w full_text)).length
    has_suspicious_domain := check_suspicious_domain sender
    has_many_links := countLinks content
    has_attachments := has_att }

/-- The uppercase-ratio formula in the words of the specification: count of
uppercase characters of subject plus body divided by its total character
count, 0 if that text is empty.  Stated for comparison with the code. -/
def capsRatioSpec (subject body : List Char) : ℚ :=
  let text := subject ++ body
  if text.length ≠ 0 then
    ((text.filter Char.isUpper).length : ℚ) / (text.length : ℚ)
  else 0

/-- Round a rational to the nearest integer, ties to even, as IEEE 754
rounding of a scaled significand does. -/
def roundHalfEven (x : ℚ) : ℤ :=
  let f := ⌊x⌋
  if x - f < 1/2 then f
  else if (1:ℚ)/2 < x - f then f + 1
  else if f % 2 = 0 then f else f + 1

/-- Rounding of an exact rational value to the nearest IEEE 754 binary64
double (round to nearest, ties to even), modelled for the normal range:
for a nonzero value with binade exponent e given by the base-2 integer
logarithm of the magnitude, the 53-bit significand is the half-even
rounding of the magnitude scaled by 2 to the 52 - e, and the double is
that significand scaled back.  Every value the spam scorer manipulates
lies well inside the normal range, so overflow and subnormal handling do
not arise. -/
def fl (q : ℚ) : ℚ :=
  if q = 0 then 0
  else if q < 0 then
    -((roundHalfEven (-q * (2:ℚ) ^ ((52:ℤ) - Int.log 2 (-q))) : ℚ)
        * (2:ℚ) ^ (Int.log 2 (-q) - (52:ℤ)))
  else
    (roundHalfEven (q * (2:ℚ) ^ ((52:ℤ) - Int.log 2 q)) : ℚ)
      * (2:ℚ) ^ (Int.log 2 q - (52:ℤ))

/-- Python float addition: the exact sum, rounded to the nearest double. -/
def floatAdd (a b : ℚ) : ℚ := fl (a + b)

/-- Python float multiplication: the exact product, rounded to the
nearest double. -/
def floatMul (a b : ℚ) : ℚ := fl (a * b)

/-- The double denoted by the Python literal 0.2 (the weights for
caps_ratio and spam_words), as an exact rational; the amended C3 theorem
proves it equal to fl of 2/10. -/
def dbl02 : ℚ := 3602879701896397 / 18014398509481984

/-- The double denoted by the Python literal 0.15 (exclamation weight). -/
def dbl015 : ℚ := 5404319552844595 / 36028797018963968

/-- The double denoted by the Python literal 0.25 (urgent-word weight),
exactly representable. -/
def dbl025 : ℚ := 1 / 4

/-- The double denoted by the Python literal 0.3 (suspicious-domain
weight, and the caps-ratio comparison threshold). -/
def dbl03 : ℚ := 5404319552844595 / 18014398509481984

/-- The double denoted by the Python literal 0.1 (link weight). -/
def dbl01 : ℚ := 3602879701896397 / 36028797018963968

/-- The double denoted by the Python literal 0.6 (spam verdict
threshold). -/
def dbl06 : ℚ := 5404319552844595 / 9007199254740992

/-- The double denoted by the Python literal 1.5 (confidence factor),
exactly representable. -/
def dbl15 : ℚ := 3 / 2

/-- The double denoted by the Python literal 0.31 (the uppercase ratio of
the caps-only example vector). -/
def dbl031 : ℚ := 5584463537939415 / 18014398509481984

/-- Result dictionary of analyze_email_spam. -/
structure ClassificationResult where
  is_spam : Bool
  spam_score : ℚ
  confidence : ℚ
deriving DecidableEq, Repr

/-- analyze_email_spam: the additive rule table computed in binary64
float arithmetic as Python does it: the score starts at 0.0 and each
triggered condition adds its weight with a correctly rounded float
addition, in source order; the verdict compares the float score against
the double 0.6, and the confidence is the float product of the score with
1.5, clamped at 1.0 by an exact min.  The decimal literals of the source
are the dbl constants above, each identified with the rounding of its
decimal value in the amended C3 theorem. -/
def analyze_email_spam (features : FeatureVector) : ClassificationResult :=
  let s1 : ℚ := if features.caps_ratio > dbl03 then floatAdd 0 dbl02 else 0
  let s2 : ℚ := if features.exclamation_count > 3 then floatAdd s1 dbl015 else s1
  let s3 : ℚ := if features.urgent_words > 0 then floatAdd s2 dbl025 else s2
  let s4 : ℚ := if features.spam_words > 2 then floatAdd s3 dbl02 else s3
  let s5 : ℚ := if features.has_suspicious_domain then floatAdd s4 dbl03 else s4
  let spam_score := if features.has_many_links > 5 then floatAdd s5 dbl01 else s5
  { is_spam := decide (spam_score > dbl06)
    spam_score := spam_score
    confidence := min (floatMul spam_score dbl15) 1 }

/-- A concrete feature vector crossing all six scorer thresholds. -/
def fullTriggerFV : FeatureVector :=
  { subject_length := 10, content_length := 100, total_length := 111
    caps_ratio := 1/2, exclamation_count := 4, question_count := 1
    dollar_count := 0, urgent_words := 1, spam_words := 3
    has_suspicious_domain := true, has_many_links := 6, has_attachments := false }

/-- A concrete feature vector crossing only the uppercase-ratio
threshold, with uppercase ratio the double 0.31. -/
def capsOnlyFV : FeatureVector :=
  { subject_length := 5, content_length := 0, total_length := 6
    caps_ratio := dbl031, exclamation_count := 0, question_count := 0
    dollar_count := 0, urgent_words := 0, spam_words := 0
    has_suspicious_domain := false, has_many_links := 0, has_attachments := false }

/-- A concrete feature vector crossing exactly the exclamation, urgent
and spam-word thresholds, whose decimal weights sum to exactly 0.60. -/
def tripleFV : FeatureVector :=
  { subject_length := 0, content_length := 26, total_length := 27
    caps_ratio := 0, exclamation_count := 4, question_count := 0
    dollar_count := 0, urgent_words := 1, spam_words := 3
    has_suspicious_domain := false, has_many_links := 0, has_attachments := false }

/-- store_email_in_database, over the analyzed_emails table modelled as the
list of its (account_id, email_id) row keys in insertion order: when the
key pair is already present, no row is inserted and the call reports false;
otherwise the row is appended and the call reports true. -/
def store_email_in_database (db : List (Nat × String)) (account_id : Nat)
    (email_id : String) : List (Nat × String) × Bool :=
  if (account_id, email_id) ∈ db then (db, false)
  else (db ++ [(account_id, email_id)], true)

/-- The storing loop of process_account_emails: each fetched email is a
pair of its server id and the spam verdict of its analysis; the loop stores
each and counts stored emails and stored spam.  Returns the final table,
the processed count and the spam count. -/
def processEmailsFull (aid : Nat) :
    List (String × Bool) → List (Nat × String) → List (Nat × String) × Nat × Nat
  | [], db => (db, 0, 0)
  | e :: rest, db =>
    let r1 := store_email_in_database db aid e.1
    let r2 := processEmailsFull aid rest r1.1
    if r1.2 then (r2.1, r2.2.1 + 1, r2.2.2 + (if e.2 then 1 else 0)) else r2

/-- The per-account statistics row of email_accounts that
process_account_emails touches. -/
structure AccountStats where
  last_check_at : Option Nat
  total_emails_checked : Nat
  total_spam_detected : Nat
deriving DecidableEq, Repr

/-- The report dictionary returned by process_account_emails. -/
structure ProcessReport where
  success : Bool
  emails_processed : Nat
  spam_detected : Nat
  ham_detected : Nat
  processing_time : Nat
deriving DecidableEq, Repr

/-- update_account_statistics: sets last_check_at to CURRENT_TIMESTAMP,
the clock value at the moment the UPDATE statement runs, and adds the pass
counts to the cumulative counters. -/
def update_account_statistics (stats : AccountStats)
    (emails_processed spam_detected current_timestamp : Nat) : AccountStats :=
  { last_check_at := some current_timestamp
    total_emails_checked := stats.total_emails_checked + emails_processed
    total_spam_detected := stats.total_spam_detected + spam_detected }

/-- process_account_emails.  connect_ok models whether connect_to_server
succeeds; emails is the fetched batch (server id and analysis verdict per
message, fetch errors having already reduced to an empty batch in the
source); start_time is the clock at entry and now_time the clock when the
pass finishes, which is when the statistics UPDATE runs.  On connection
failure the report has success false and nothing is touched; on an empty
batch the report has success true and nothing is touched; otherwise each
email is analysed and stored, and the statistics are updated with the
stored counts. -/
def process_account_emails (connect_ok : Bool) (emails : List (String × Bool))
    (aid : Nat) (db : List (Nat × String)) (stats : AccountStats)
    (start_time now_time : Nat) :
    AccountStats × List (Nat × String) × ProcessReport :=
  if connect_ok = false then
    (stats, db, ⟨false, 0, 0, 0, 0⟩)
  else if emails.isEmpty then
    (stats, db, ⟨true, 0, 0, 0, now_time - start_time⟩)
  else
    let r := processEmailsFull aid emails db
    let stats2 := update_account_statistics stats r.2.1 r.2.2 now_time
    (stats2, r.1, ⟨true, r.2.1, r.2.2, r.2.1 - r.2.2, now_time - start_time⟩)

/-- An account row as read by run_automatic_checks in app.py. -/
structure SchedAccount where
  id : Nat
  is_active : Bool
  check_interval : Nat
deriving DecidableEq, Repr

/-- The due test of run_automatic_checks: the elapsed seconds since the
recorded last check reach the interval converted from minutes to seconds.
Clock values are rationals since time.time is real-valued. -/
def account_is_due (now last_check : ℚ) (check_interval : Nat) : Bool :=
  decide (now - last_check ≥ (check_interval : ℚ) * 60)

/-- The scheduling decision of run_automatic_checks: the ids of the
accounts for which a pass is started this cycle, namely the active due
ones; last_auto_check is the session-state map from account id to the
recorded last check time (0 when absent, as dict.get gives). -/
def run_automatic_checks (accounts : List SchedAccount)
    (last_auto_check : Nat → ℚ) (now : ℚ) : List Nat :=
  (accounts.filter
    (fun a => a.is_active && account_is_due now (last_auto_check a.id) a.check_interval)).map
    (fun a => a.id)

/-- The hybrid default retrieval strategy get_recent_unread_emails, over
search results abstracted to the lists of matching message ids the two
IMAP searches return: unread messages of the last days_back days, and read
messages of the last 2 days.  The read list is sliced to its last
max_emails over 2 entries (Python floor division, Python negative slice),
each batch is fetched in order, and the combined unread-then-read list is
sliced to its last max_emails entries when it is longer than that. -/
def get_recent_unread_emails (unread read : List Nat) (max_emails : Nat) :
    List Nat :=
  let emails := unread ++ pyLastSlice (max_emails / 2) read
  if emails.length > max_emails then pyLastSlice max_emails emails else emails

/-- States of the imaplib connection as disconnect inspects them. -/
inductive ImapState
  | nonAuth
  | authed
  | selectedBox
  | logoutDone
deriving DecidableEq, Repr

/-- An open imaplib connection: its protocol state, and whether its logout
and socket close would raise. -/
structure ImapConnection where
  imapState : ImapState
  logout_raises : Bool
  close_raises : Bool
deriving DecidableEq, Repr

/-- Protocol operations attempted by disconnect and their outcomes; a
failed outcome is an exception that disconnect catches and logs. -/
inductive ConnAction
  | logoutOk
  | logoutFailed
  | closeOk
  | closeFailed
deriving DecidableEq, Repr

/-- connection.logout: raises when the connection is in a state where
logout fails. -/
def imap_logout (c : ImapConnection) : Except String ImapState :=
  if c.logout_raises then Except.error "logout error" else Except.ok ImapState.logoutDone

/-- connection.close on the socket: raises when closing fails. -/
def imap_close (c : ImapConnection) : Except String Unit :=
  if c.close_raises then Except.error "close error" else Except.ok ()

/-- disconnect: when a connection is held, attempt logout unless the state
is already LOGOUT, catching any exception; then attempt the socket close,
catching any exception; finally clear the connection attribute.  When no
connection is held, do nothing.  The result carries the new connection
attribute and the attempted actions; an uncaught exception would surface
as an error value, and none ever does. -/
def disconnect (conn : Option ImapConnection) :
    Except String (Option ImapConnection × List ConnAction) :=
  match conn with
  | none => Except.ok (none, [])
  | some c =>
    let logoutActs :=
      if c.imapState ≠ ImapState.logoutDone then
        match imap_logout c with
        | Except.ok _ => [ConnAction.logoutOk]
        | Except.error _ => [ConnAction.logoutFailed]
      else []
    let closeActs :=
      match imap_close c with
      | Except.ok _ => [ConnAction.closeOk]
      | Except.error _ => [ConnAction.closeFailed]
    Except.ok (none, logoutActs ++ closeActs)

/-! Helper lemmas about the store and the storing loop. -/

theorem store_mem_mono {db : List (Nat × String)} {a : Nat} {e : String}
    {x : Nat × String} (hx : x ∈ db) :
    x ∈ (store_email_in_database db a e).1 := by
  unfold store_email_in_database
  by_cases h : (a, e) ∈ db <;> simp [h, hx]

theorem store_self_mem (db : List (Nat × String)) (a : Nat) (e : String) :
    (a, e) ∈ (store_email_in_database db a e).1 := by
  unfold store_email_in_database
  by_cases h : (a, e) ∈ db <;> simp [h]

theorem store_of_mem {db : List (Nat × String)} {a : Nat} {e : String}
    (h : (a, e) ∈ db) : store_email_in_database db a e = (db, false) := by
  simp [store_email_in_database, h]

theorem store_false_eq {db : List (Nat × String)} {a : Nat} {e : String}
    (h : (store_email_in_database db a e).2 = false) :
    (store_email_in_database db a e).1 = db := by
  by_cases hm : (a, e) ∈ db
  · simp [store_email_in_database, hm]
  · simp [store_email_in_database, hm] at h

theorem store_true_len {db : List (Nat × String)} {a : Nat} {e : String}
    (h : (store_email_in_database db a e).2 = true) :
    (store_email_in_database db a e).1.length = db.length + 1 := by
  by_cases hm : (a, e) ∈ db
  · simp [store_email_in_database, hm] at h
  · simp [store_email_in_database, hm]

theorem store_nodup {db : List (Nat × String)} {a : Nat} {e : String}
    (h : db.Nodup) : (store_email_in_database db a e).1.Nodup := by
  by_cases hm : (a, e) ∈ db
  · simpa [store_email_in_database, hm] using h
  · simp [store_email_in_database, hm, List.nodup_append, h]

theorem pef_fst_cons (a : Nat) (e : String × Bool) (rest : List (String × Bool))
    (db : List (Nat × String)) :
    (processEmailsFull a (e :: rest) db).1 =
      (processEmailsFull a rest (store_email_in_database db a e.1).1).1 := by
  simp only [processEmailsFull]
  split <;> rfl

theorem pef_mono {a : Nat} {x : Nat × String} :
    ∀ (es : List (String × Bool)) (db : List (Nat × String)), x ∈ db →
      x ∈ (processEmailsFull a es db).1 := by
  intro es
  induction es with
  | nil => intro db hx; exact hx
  | cons e rest ih =>
    intro db hx
    rw [pef_fst_cons]
    exact ih _ (store_mem_mono hx)

theorem pef_mem {a : Nat} {p : String × Bool} :
    ∀ (es : List (String × Bool)) (db : List (Nat × String)), p ∈ es →
      (a, p.1) ∈ (processEmailsFull a es db).1 := by
  intro es
  induction es with
  | nil => intro db hp; cases hp
  | cons e rest ih =>
    intro db hp
    rw [pef_fst_cons]
    rcases List.mem_cons.mp hp with h | h
    · subst h
      exact pef_mono rest _ (store_self_mem db a p.1)
    · exact ih _ h

theorem pef_noop {a : Nat} :
    ∀ (es : List (String × Bool)) (db : List (Nat × String)),
      (∀ p ∈ es, (a, p.1) ∈ db) → processEmailsFull a es db = (db, 0, 0) := by
  intro es
  induction es with
  | nil => intro db _; rfl
  | cons e rest ih =>
    intro db h
    have he : (a, e.1) ∈ db := h e (List.mem_cons_self e rest)
    have hrest := ih db (fun p hp => h p (List.mem_cons_of_mem e hp))
    simp only [processEmailsFull, store_of_mem he]
    simpa using hrest

theorem pef_len {a : Nat} :
    ∀ (es : List (String × Bool)) (db : List (Nat × String)),
      (processEmailsFull a es db).1.length =
        db.length + (processEmailsFull a es db).2.1 := by
  intro es
  induction es with
  | nil => intro db; rfl
  | cons e rest ih =>
    intro db
    simp only [processEmailsFull]
    split
    · have hb : (store_email_in_database db a e.1).2 = true := by assumption
      have h1 := store_true_len hb
      have h2 := ih (store_email_in_database db a e.1).1
      simp only []
      omega
    · have hb : (store_email_in_database db a e.1).2 = false := by
        rename_i hcond
        exact Bool.not_eq_true _ ▸ Bool.of_not_eq_true hcond
      have h1 := store_false_eq hb
      have h2 := ih (store_email_in_database db a e.1).1
      rw [h1] at h2
      rw [h1]
      exact h2

theorem pef_spam_le {a : Nat} :
    ∀ (es : List (String × Bool)) (db : List (Nat × String)),
      (processEmailsFull a es db).2.2 ≤ (processEmailsFull a es db).2.1 := by
  intro es
  induction es with
  | nil => intro db; exact Nat.le_refl 0
  | cons e rest ih =>
    intro db
    simp only [processEmailsFull]
    split
    · have h := ih (store_email_in_database db a e.1).1
      simp only []
      cases e.2 <;> simp <;> omega
    · exact ih _

theorem pyLastSlice_suffix (k : Nat) (xs : List α) :
    (pyLastSlice k xs).IsSuffix xs := by
  unfold pyLastSlice
  by_cases h : k = 0
  · simp [h]
  · rw [if_neg h]
    exact List.drop_suffix _ _

/-! Evaluation lemmas for the binary64 rounding model. -/

theorem int_log2_eq {q : ℚ} {e : ℤ} (hq : 0 < q) (h1 : (2:ℚ)^e ≤ q)
    (h2 : q < (2:ℚ)^(e+1)) : Int.log 2 q = e := by
  have hc : ((2:ℕ):ℚ) = (2:ℚ) := by norm_num
  refine le_antisymm ?_ ?_
  · have h3 : q < ((2:ℕ):ℚ)^(e+1) := by rw [hc]; exact h2
    have := (Int.lt_zpow_iff_log_lt (by norm_num) hq).mp h3
    omega
  · have h4 : ((2:ℕ):ℚ)^e ≤ q := by rw [hc]; exact h1
    exact (Int.zpow_le_iff_le_log (by norm_num) hq).mp h4

theorem rhe_eq_down {x : ℚ} {f : ℤ} (hf : ⌊x⌋ = f) (h : x - f < 1/2) :
    roundHalfEven x = f := by
  simp only [roundHalfEven]
  rw [hf, if_pos h]

theorem rhe_eq_up {x : ℚ} {f : ℤ} (hf : ⌊x⌋ = f) (h : (1:ℚ)/2 < x - f) :
    roundHalfEven x = f + 1 := by
  simp only [roundHalfEven]
  rw [hf, if_neg (by linarith), if_pos h]

theorem rhe_eq_tie_even {x : ℚ} {f : ℤ} (hf : ⌊x⌋ = f) (h : x - f = 1/2)
    (hp : f % 2 = 0) : roundHalfEven x = f := by
  simp only [roundHalfEven]
  rw [hf, if_neg (by rw [h]; norm_num), if_neg (by rw [h]; norm_num), if_pos hp]

theorem rhe_eq_tie_odd {x : ℚ} {f : ℤ} (hf : ⌊x⌋ = f) (h : x - f = 1/2)
    (hp : f % 2 = 1) : roundHalfEven x = f + 1 := by
  simp only [roundHalfEven]
  rw [hf, if_neg (by rw [h]; norm_num), if_neg (by rw [h]; norm_num),
    if_neg (by omega)]

theorem fl_eval {q r : ℚ} {e m : ℤ}
    (h1 : (2:ℚ)^e ≤ q) (h2 : q < (2:ℚ)^(e+1))
    (hm : roundHalfEven (q * (2:ℚ)^((52:ℤ) - e)) = m)
    (hr : (m:ℚ) * (2:ℚ)^(e - (52:ℤ)) = r) :
    fl q = r := by
  have hq : 0 < q := lt_of_lt_of_le (by positivity) h1
  simp only [fl]
  rw [if_neg hq.ne', if_neg (not_lt.mpr hq.le), int_log2_eq hq h1 h2, hm, hr]

theorem fl_dbl02 : fl (2/10) = dbl02 :=
  fl_eval (e := -3) (m := 7205759403792794) (by norm_num) (by norm_num)
    (rhe_eq_up (f := 7205759403792793)
      (Int.floor_eq_iff.mpr ⟨by norm_num, by norm_num⟩) (by norm_num))
    (by norm_num [dbl02])

theorem fl_dbl015 : fl (15/100) = dbl015 :=
  fl_eval (e := -3) (m := 5404319552844595) (by norm_num) (by norm_num)
    (rhe_eq_down (f := 5404319552844595)
      (Int.floor_eq_iff.mpr ⟨by norm_num, by norm_num⟩) (by norm_num))
    (by norm_num [dbl015])

theorem fl_dbl025 : fl (25/100) = dbl025 :=
  fl_eval (e := -2) (m := 4503599627370496) (by norm_num) (by norm_num)
    (rhe_eq_down (f := 4503599627370496)
      (Int.floor_eq_iff.mpr ⟨by norm_num, by norm_num⟩) (by norm_num))
    (by norm_num [dbl025])

theorem fl_dbl03 : fl (3/10) = dbl03 :=
  fl_eval (e := -2) (m := 5404319552844595) (by norm_num) (by norm_num)
    (rhe_eq_down (f := 5404319552844595)
      (Int.floor_eq_iff.mpr ⟨by norm_num, by norm_num⟩) (by norm_num))
    (by norm_num [dbl03])

theorem fl_dbl01 : fl (1/10) = dbl01 :=
  fl_eval (e := -4) (m := 7205759403792794) (by norm_num) (by norm_num)
    (rhe_eq_up (f := 7205759403792793)
      (Int.floor_eq_iff.mpr ⟨by norm_num, by norm_num⟩) (by norm_num))
    (by norm_num [dbl01])

theorem fl_dbl06 : fl (6/10) = dbl06 :=
  fl_eval (e := -1) (m := 5404319552844595) (by norm_num) (by norm_num)
    (rhe_eq_down (f := 5404319552844595)
      (Int.floor_eq_iff.mpr ⟨by norm_num, by norm_num⟩) (by norm_num))
    (by norm_num [dbl06])

theorem fl_dbl15 : fl (15/10) = dbl15 :=
  fl_eval (e := 0) (m := 6755399441055744) (by norm_num) (by norm_num)
    (rhe_eq_down (f := 6755399441055744)
      (Int.floor_eq_iff.mpr ⟨by norm_num, by norm_num⟩) (by norm_num))
    (by norm_num [dbl15])

theorem fl_dbl031 : fl (31/100) = dbl031 :=
  fl_eval (e := -2) (m := 5584463537939415) (by norm_num) (by norm_num)
    (rhe_eq_down (f := 5584463537939415)
      (Int.floor_eq_iff.mpr ⟨by norm_num, by norm_num⟩) (by norm_num))
    (by norm_num [dbl031])

theorem fadd_0_02 : floatAdd 0 dbl02 = dbl02 := by
  show fl (0 + dbl02) = dbl02
  rw [zero_add]
  exact fl_eval (e := -3) (m := 7205759403792794) (by norm_num [dbl02])
    (by norm_num [dbl02])
    (rhe_eq_down (f := 7205759403792794)
      (Int.floor_eq_iff.mpr ⟨by norm_num [dbl02], by norm_num [dbl02]⟩)
      (by norm_num [dbl02]))
    (by norm_num [dbl02])

theorem fadd_02_015 :
    floatAdd dbl02 dbl015 = (3152519739159347:ℚ) / 9007199254740992 := by
  show fl (dbl02 + dbl015) = _
  rw [show dbl02 + dbl015 = (12610078956637389:ℚ)/36028797018963968 from by
    norm_num [dbl02, dbl015]]
  exact fl_eval (e := -2) (m := 6305039478318694) (by norm_num) (by norm_num)
    (rhe_eq_tie_even (f := 6305039478318694)
      (Int.floor_eq_iff.mpr ⟨by norm_num, by norm_num⟩) (by norm_num) (by decide))
    (by norm_num)

theorem fadd_35_025 :
    floatAdd ((3152519739159347:ℚ) / 9007199254740992) dbl025 = dbl06 := by
  show fl ((3152519739159347:ℚ) / 9007199254740992 + dbl025) = dbl06
  rw [show (3152519739159347:ℚ)/9007199254740992 + dbl025 =
      (5404319552844595:ℚ)/9007199254740992 from by norm_num [dbl025]]
  exact fl_eval (e := -1) (m := 5404319552844595) (by norm_num) (by norm_num)
    (rhe_eq_down (f := 5404319552844595)
      (Int.floor_eq_iff.mpr ⟨by norm_num, by norm_num⟩) (by norm_num))
    (by norm_num [dbl06])

theorem fadd_06_02 :
    floatAdd dbl06 dbl02 = (3602879701896397:ℚ) / 4503599627370496 := by
  show fl (dbl06 + dbl02) = _
  rw [show dbl06 + dbl02 = (14411518807585587:ℚ)/18014398509481984 from by
    norm_num [dbl06, dbl02]]
  exact fl_eval (e := -1) (m := 7205759403792794) (by norm_num) (by norm_num)
    (rhe_eq_tie_odd (f := 7205759403792793)
      (Int.floor_eq_iff.mpr ⟨by norm_num, by norm_num⟩) (by norm_num) (by decide))
    (by norm_num)

theorem fadd_08_03 :
    floatAdd ((3602879701896397:ℚ) / 4503599627370496) dbl03 =
      (2476979795053773:ℚ) / 2251799813685248 := by
  show fl ((3602879701896397:ℚ) / 4503599627370496 + dbl03) = _
  rw [show (3602879701896397:ℚ)/4503599627370496 + dbl03 =
      (19815838360430183:ℚ)/18014398509481984 from by norm_num [dbl03]]
  exact fl_eval (e := 0) (m := 4953959590107546) (by norm_num) (by norm_num)
    (rhe_eq_up (f := 4953959590107545)
      (Int.floor_eq_iff.mpr ⟨by norm_num, by norm_num⟩) (by norm_num))
    (by norm_num)

theorem fadd_11_01 :
    floatAdd ((2476979795053773:ℚ) / 2251799813685248) dbl01 =
      (1351079888211149:ℚ) / 1125899906842624 := by
  show fl ((2476979795053773:ℚ) / 2251799813685248 + dbl01) = _
  rw [show (2476979795053773:ℚ)/2251799813685248 + dbl01 =
      (43234556422756765:ℚ)/36028797018963968 from by norm_num [dbl01]]
  exact fl_eval (e := 0) (m := 5404319552844596) (by norm_num) (by norm_num)
    (rhe_eq_up (f := 5404319552844595)
      (Int.floor_eq_iff.mpr ⟨by norm_num, by norm_num⟩) (by norm_num))
    (by norm_num)

theorem fmul_12_15 :
    floatMul ((1351079888211149:ℚ) / 1125899906842624) dbl15 =
      (4053239664633447:ℚ) / 2251799813685248 := by
  show fl ((1351079888211149:ℚ) / 1125899906842624 * dbl15) = _
  rw [show (1351079888211149:ℚ)/1125899906842624 * dbl15 =
      (4053239664633447:ℚ)/2251799813685248 from by norm_num [dbl15]]
  exact fl_eval (e := 0) (m := 8106479329266894) (by norm_num) (by norm_num)
    (rhe_eq_down (f := 8106479329266894)
      (Int.floor_eq_iff.mpr ⟨by norm_num, by norm_num⟩) (by norm_num))
    (by norm_num)

theorem fmul_02_15 :
    floatMul dbl02 dbl15 = (1351079888211149:ℚ) / 4503599627370496 := by
  show fl (dbl02 * dbl15) = _
  rw [show dbl02 * dbl15 = (10808639105689191:ℚ)/36028797018963968 from by
    norm_num [dbl02, dbl15]]
  exact fl_eval (e := -2) (m := 5404319552844596) (by norm_num) (by norm_num)
    (rhe_eq_tie_odd (f := 5404319552844595)
      (Int.floor_eq_iff.mpr ⟨by norm_num, by norm_num⟩) (by norm_num) (by decide))
    (by norm_num)

theorem fadd_0_015 : floatAdd 0 dbl015 = dbl015 := by
  show fl (0 + dbl015) = dbl015
  rw [zero_add]
  exact fl_eval (e := -3) (m := 5404319552844595) (by norm_num [dbl015])
    (by norm_num [dbl015])
    (rhe_eq_down (f := 5404319552844595)
      (Int.floor_eq_iff.mpr ⟨by norm_num [dbl015], by norm_num [dbl015]⟩)
      (by norm_num [dbl015]))
    (by norm_num [dbl015])

theorem fadd_015_025 :
    floatAdd dbl015 dbl025 = (3602879701896397:ℚ) / 9007199254740992 := by
  show fl (dbl015 + dbl025) = _
  rw [show dbl015 + dbl025 = (14411518807585587:ℚ)/36028797018963968 from by
    norm_num [dbl015, dbl025]]
  exact fl_eval (e := -2) (m := 7205759403792794) (by norm_num) (by norm_num)
    (rhe_eq_tie_odd (f := 7205759403792793)
      (Int.floor_eq_iff.mpr ⟨by norm_num, by norm_num⟩) (by norm_num) (by decide))
    (by norm_num)

theorem fadd_04_02 :
    floatAdd ((3602879701896397:ℚ) / 9007199254740992) dbl02 =
      (1351079888211149:ℚ) / 2251799813685248 := by
  show fl ((3602879701896397:ℚ) / 9007199254740992 + dbl02) = _
  rw [show (3602879701896397:ℚ)/9007199254740992 + dbl02 =
      (10808639105689191:ℚ)/18014398509481984 from by norm_num [dbl02]]
  exact fl_eval (e := -1) (m := 5404319552844596) (by norm_num) (by norm_num)
    (rhe_eq_tie_odd (f := 5404319552844595)
      (Int.floor_eq_iff.mpr ⟨by norm_num, by norm_num⟩) (by norm_num) (by decide))
    (by norm_num)

theorem fmul_0601_15 :
    floatMul ((1351079888211149:ℚ) / 2251799813685248) dbl15 =
      (4053239664633447:ℚ) / 4503599627370496 := by
  show fl ((1351079888211149:ℚ) / 2251799813685248 * dbl15) = _
  rw [show (1351079888211149:ℚ)/2251799813685248 * dbl15 =
      (4053239664633447:ℚ)/4503599627370496 from by norm_num [dbl15]]
  exact fl_eval (e := -1) (m := 8106479329266894) (by norm_num) (by norm_num)
    (rhe_eq_down (f := 8106479329266894)
      (Int.floor_eq_iff.mpr ⟨by norm_num, by norm_num⟩) (by norm_num))
    (by norm_num)

theorem analyze_fullTrigger_eval :
    analyze_email_spam fullTriggerFV =
      { is_spam := true, spam_score := (1351079888211149:ℚ)/1125899906842624,
        confidence := 1 } := by
  simp only [analyze_email_spam, fullTriggerFV]
  rw [if_pos (show (1:ℚ)/2 > dbl03 from by norm_num [dbl03]),
    if_pos (show (4:ℕ) > 3 from by norm_num),
    if_pos (show (1:ℕ) > 0 from by norm_num),
    if_pos (show (3:ℕ) > 2 from by norm_num),
    if_pos (show True from trivial),
    if_pos (show (6:ℕ) > 5 from by norm_num),
    fadd_0_02, fadd_02_015, fadd_35_025, fadd_06_02, fadd_08_03, fadd_11_01,
    fmul_12_15, ClassificationResult.mk.injEq]
  exact ⟨decide_eq_true (by norm_num [dbl06]), rfl, min_eq_right (by norm_num)⟩

theorem analyze_capsOnly_eval :
    analyze_email_spam capsOnlyFV =
      { is_spam := false, spam_score := dbl02,
        confidence := (1351079888211149:ℚ)/4503599627370496 } := by
  simp only [analyze_email_spam, capsOnlyFV]
  rw [if_pos (show dbl031 > dbl03 from by norm_num [dbl031, dbl03]),
    if_neg (show ¬((0:ℕ) > 3) from by norm_num),
    if_neg (show ¬((0:ℕ) > 0) from by norm_num),
    if_neg (show ¬((0:ℕ) > 2) from by norm_num),
    if_neg (show ¬(false = true) from by simp),
    if_neg (show ¬((0:ℕ) > 5) from by norm_num),
    fadd_0_02, fmul_02_15, ClassificationResult.mk.injEq]
  exact ⟨decide_eq_false (by norm_num [dbl02, dbl06]), rfl,
    min_eq_left (by norm_num)⟩

theorem analyze_triple_eval :
    analyze_email_spam tripleFV =
      { is_spam := true, spam_score := (1351079888211149:ℚ)/2251799813685248,
        confidence := (4053239664633447:ℚ)/4503599627370496 } := by
  simp only [analyze_email_spam, tripleFV]
  rw [if_neg (show ¬((0:ℚ) > dbl03) from by norm_num [dbl03]),
    if_pos (show (4:ℕ) > 3 from by norm_num),
    if_pos (show (1:ℕ) > 0 from by norm_num),
    if_pos (show (3:ℕ) > 2 from by norm_num),
    if_neg (show ¬(false = true) from by simp),
    if_neg (show ¬((0:ℕ) > 5) from by norm_num),
    fadd_0_015, fadd_015_025, fadd_04_02, fmul_0601_15,
    ClassificationResult.mk.injEq]
  exact ⟨decide_eq_true (by norm_num [dbl06]), rfl, min_eq_left (by norm_num)⟩

/-! The claims. -/

/-- C1: when a row with the same (account_id, email_id) pair already
exists in the table, store_email_in_database inserts no row and returns
false; one store call preserves key uniqueness of the table; and running
the same storing pass a second time against an unchanged batch leaves the
table unchanged and inserts zero new rows. -/
theorem claim_C1_store_dedup_idempotent (db : List (Nat × String)) (aid : Nat)
    (eid : String) (ids : List (String × Bool)) :
    ((aid, eid) ∈ db → store_email_in_database db aid eid = (db, false))
    ∧ (db.Nodup → (store_email_in_database db aid eid).1.Nodup)
    ∧ processEmailsFull aid ids (processEmailsFull aid ids db).1 =
        ((processEmailsFull aid ids db).1, 0, 0) := by
  refine ⟨fun h => store_of_mem h, fun h => store_nodup h, ?_⟩
  exact pef_noop ids _ (fun p hp => pef_mem ids db hp)

theorem claim_C1_store_dedup_idempotent_witness :
    store_email_in_database [(1, "a")] 1 "a" = ([(1, "a")], false)
    ∧ (store_email_in_database [(1, "a")] 1 "b").1.Nodup :=
  ⟨(claim_C1_store_dedup_idempotent [(1, "a")] 1 "a" []).1 (by decide),
   (claim_C1_store_dedup_idempotent [(1, "a")] 1 "b" []).2.1 (by decide)⟩

/-- C2 counterexample: with 10 unread-recent and 20 read-recent candidate
messages and limit 12, the hybrid strategy does not return all 10 unread
plus the 2 most recent read messages: the final truncation to the last 12
entries drops the 4 oldest unread ones. -/
theorem claim_C2_hybrid_counterexample :
    get_recent_unread_emails (List.range 10)
        ((List.range 20).map (fun n => n + 100)) 12 ≠
      List.range 10 ++ [118, 119] := by decide

/-- C2 amended: the hybrid strategy returns a suffix of the list formed by
the unread messages followed by the read messages capped at limit over 2,
and with a positive limit its result never exceeds limit entries; in the
10-unread 20-read limit-12 case it returns the last 6 unread plus 6 read
messages, 12 total. -/
theorem claim_C2_hybrid_amended (unread read : List Nat) (limit : Nat) :
    (get_recent_unread_emails unread read limit).IsSuffix
        (unread ++ pyLastSlice (limit / 2) read)
    ∧ (0 < limit → (get_recent_unread_emails unread read limit).length ≤ limit)
    ∧ get_recent_unread_emails (List.range 10)
        ((List.range 20).map (fun n => n + 100)) 12 =
        [4, 5, 6, 7, 8, 9, 114, 115, 116, 117, 118, 119] := by
  refine ⟨?_, ?_, by decide⟩
  · simp only [get_recent_unread_emails]
    split
    · exact pyLastSlice_suffix _ _
    · exact List.suffix_refl _
  · intro hl
    simp only [get_recent_unread_emails]
    split
    · rename_i hgt
      unfold pyLastSlice
      rw [if_neg (Nat.pos_iff_ne_zero.mp hl)]
      rw [List.length_drop]
      omega
    · rename_i hle
      omega

theorem claim_C2_hybrid_amended_witness :
    0 < 12 ∧
      (get_recent_unread_emails (List.range 10)
        ((List.range 20).map (fun n => n + 100)) 12).length ≤ 12 :=
  ⟨by decide,
   (claim_C2_hybrid_amended (List.range 10)
     ((List.range 20).map (fun n => n + 100)) 12).2.1 (by decide)⟩

/-- C3 counterexample: the scorer computes in binary64 floats, not exact
decimals: the vector crossing all six thresholds does not score exactly
1.20 (the float accumulation gives the double printed as
1.2000000000000002), and the caps-only vector does not get confidence
exactly 0.30 (the float product gives the double printed as
0.30000000000000004). -/
theorem claim_C3_scorer_counterexample :
    (analyze_email_spam fullTriggerFV).spam_score ≠ 12/10
    ∧ (analyze_email_spam capsOnlyFV).confidence ≠ 3/10 := by
  refine ⟨?_, ?_⟩
  · rw [analyze_fullTrigger_eval]
    norm_num
  · rw [analyze_capsOnly_eval]
    norm_num

/-- C3 amended: the scorer follows the fixed additive rule table computed
in binary64 float arithmetic: each weight is the double denoted by the
listed decimal literal and each addition is correctly rounded; is_spam
compares the float score against the double 0.6 and confidence is the
correctly rounded float product of the score with 1.5, clamped at 1 by an
exact min.  The full-trigger vector scores the double
1.2000000000000002, is spam, with confidence clamped to 1; the caps-only
vector (uppercase ratio the double 0.31) scores exactly the double 0.2,
is not spam, with confidence the double 0.30000000000000004; and a vector
triggering exactly the exclamation, urgent-word and spam-word conditions,
whose decimal weights sum to exactly 0.60, scores the double
0.6000000000000001, which exceeds 0.6, so it is classified spam although
the exact decimal sum would not cross the strict threshold. -/
theorem claim_C3_scorer_float_amended (f : FeatureVector) :
    (analyze_email_spam f).is_spam
        = decide ((analyze_email_spam f).spam_score > dbl06)
    ∧ (analyze_email_spam f).confidence
        = min (floatMul (analyze_email_spam f).spam_score dbl15) 1
    ∧ dbl02 = fl (2/10) ∧ dbl015 = fl (15/100) ∧ dbl025 = fl (25/100)
    ∧ dbl03 = fl (3/10) ∧ dbl01 = fl (1/10) ∧ dbl06 = fl (6/10)
    ∧ dbl15 = fl (15/10) ∧ capsOnlyFV.caps_ratio = fl (31/100)
    ∧ analyze_email_spam fullTriggerFV =
        { is_spam := true, spam_score := (1351079888211149:ℚ)/1125899906842624,
          confidence := 1 }
    ∧ analyze_email_spam capsOnlyFV =
        { is_spam := false, spam_score := dbl02,
          confidence := (1351079888211149:ℚ)/4503599627370496 }
    ∧ analyze_email_spam tripleFV =
        { is_spam := true, spam_score := (1351079888211149:ℚ)/2251799813685248,
          confidence := (4053239664633447:ℚ)/4503599627370496 }
    ∧ (6:ℚ)/10 < (analyze_email_spam tripleFV).spam_score := by
  refine ⟨rfl, rfl, fl_dbl02.symm, fl_dbl015.symm, fl_dbl025.symm,
    fl_dbl03.symm, fl_dbl01.symm, fl_dbl06.symm, fl_dbl15.symm,
    fl_dbl031.symm, analyze_fullTrigger_eval, analyze_capsOnly_eval,
    analyze_triple_eval, ?_⟩
  rw [analyze_triple_eval]
  norm_num

/-- C4: the code computes the uppercase count on the lowercased text, so
at subject HELLO with empty body the stored caps_ratio is 0 while the
specified formula, uppercase count over total count of subject plus body,
gives 1. -/
theorem claim_C4_caps_ratio_bug :
    (extract_spam_features "HELLO".toList [] [] false).caps_ratio = 0
    ∧ capsRatioSpec "HELLO".toList [] = 1
    ∧ (0 : ℚ) ≠ 1 := by
  have h1 : pyLower ("HELLO".toList ++ [' '] ++ ([] : List Char)) = "hello ".toList := by
    decide
  have h2 : ("hello ".toList.filter Char.isUpper).length = 0 := by decide
  have h3 : ("hello ".toList).length = 6 := by decide
  have h4 : ("HELLO".toList ++ ([] : List Char)) = "HELLO".toList := by decide
  have h5 : ("HELLO".toList.filter Char.isUpper).length = 5 := by decide
  have h6 : ("HELLO".toList).length = 5 := by decide
  refine ⟨?_, ?_, by norm_num⟩
  · simp only [extract_spam_features, h1, h2, h3]
    norm_num
  · simp only [capsRatioSpec, h4, h5, h6]
    norm_num

/-- C5 counterexample: on fully empty input the feature total_length is
not 0: the analysed text is the one-space f-string join of subject and
content, so it has length 1. -/
theorem claim_C5_empty_counterexample :
    (extract_spam_features [] [] [] false).total_length ≠ 0 := by decide

/-- C5 amended: feature extraction is total by construction, and on empty
input every field is zero or false except total_length, which is 1, the
length of the single joining space. -/
theorem claim_C5_empty_amended :
    extract_spam_features [] [] [] false =
      { subject_length := 0, content_length := 0, total_length := 1
        caps_ratio := 0, exclamation_count := 0, question_count := 0
        dollar_count := 0, urgent_words := 0, spam_words := 0
        has_suspicious_domain := false, has_many_links := 0
        has_attachments := false } := by
  have h1 : pyLower (([] : List Char) ++ [' '] ++ []) = [' '] := by decide
  have h2 : ([' '].filter Char.isUpper) = ([] : List Char) := by decide
  simp only [extract_spam_features, h1, FeatureVector.mk.injEq]
  refine ⟨by decide, by decide, by decide, ?_, by decide, by decide, by decide,
    by decide, by decide, by decide, by decide, by decide⟩
  rw [h2]
  norm_num

/-- C6 counterexample: a text containing the word free three times
contributes 1, not 3, to the spam-word count: the code counts which list
words occur, not how many times. -/
theorem claim_C6_word_count_counterexample :
    ¬ (extract_spam_features [] [] "free free free".toList false).spam_words
        = 3 := by decide

/-- C6 amended: the word features count, case-insensitively, how many of
the fixed list words occur as substrings of the message text, each word
contributing at most once however often it occurs: the word free occurring
three times contributes 1, a substring occurrence inside freedom also
counts, and the counts are bounded by the list sizes 8 and 6. -/
theorem claim_C6_word_count_amended (subject sender content : List Char)
    (att : Bool) :
    (extract_spam_features [] [] "free free free".toList false).spam_words = 1
    ∧ (extract_spam_features [] [] "freedom".toList false).spam_words = 1
    ∧ (extract_spam_features subject sender content att).spam_words ≤ 8
    ∧ (extract_spam_features subject sender content att).urgent_words ≤ 6 := by
  refine ⟨by decide, by decide, ?_, ?_⟩
  · simp only [extract_spam_features]
    exact le_trans (List.length_filter_le _ _) (by decide)
  · simp only [extract_spam_features]
    exact le_trans (List.length_filter_le _ _) (by decide)

/-- C7 counterexample: a successful pass storing one email at start time
100 whose statistics update runs at time 107 leaves last_check_at at 107,
the completion-side clock of the UPDATE, not the start time 100. -/
theorem claim_C7_last_check_counterexample :
    (process_account_emails true [("1", false)] 1 [] ⟨none, 0, 0⟩ 100 107).1.last_check_at
        ≠ some 100
    ∧ (process_account_emails true [("1", false)] 1 [] ⟨none, 0, 0⟩ 100 107).1.last_check_at
        = some 107 := by
  refine ⟨by decide, by decide⟩

/-- C7 amended: a failed pass leaves last_check_at and both cumulative
counters untouched and reports failure, so the next cycle retries; a
successful pass with an empty fetched batch also leaves them untouched;
a successful pass with a nonempty batch sets last_check_at to the clock
at the statistics update, after processing, not to the start time, and
increments the counters by the stored counts. -/
theorem claim_C7_stats_on_success_failure (emails : List (String × Bool))
    (aid : Nat) (db : List (Nat × String)) (stats : AccountStats)
    (start_time now_time : Nat) :
    (process_account_emails false emails aid db stats start_time now_time).1 = stats
    ∧ (process_account_emails false emails aid db stats start_time now_time).2.2.success
        = false
    ∧ (emails = [] →
        (process_account_emails true emails aid db stats start_time now_time).1 = stats
        ∧ (process_account_emails true emails aid db stats start_time now_time).2.2.success
            = true)
    ∧ (emails ≠ [] →
        (process_account_emails true emails aid db stats start_time now_time).1.last_check_at
            = some now_time
        ∧ (process_account_emails true emails aid db stats start_time now_time).1.total_emails_checked
            = stats.total_emails_checked
              + (process_account_emails true emails aid db stats start_time now_time).2.2.emails_processed
        ∧ (process_account_emails true emails aid db stats start_time now_time).1.total_spam_detected
            = stats.total_spam_detected
              + (process_account_emails true emails aid db stats start_time now_time).2.2.spam_detected) := by
  refine ⟨rfl, rfl, ?_, ?_⟩
  · intro h
    subst h
    exact ⟨rfl, rfl⟩
  · intro h
    have hne : emails.isEmpty = false := by
      cases emails with
      | nil => exact absurd rfl h
      | cons e rest => rfl
    simp only [process_account_emails, hne, Bool.false_eq_true, if_false,
      update_account_statistics]
    exact ⟨rfl, rfl, rfl⟩

theorem claim_C7_stats_on_success_failure_witness :
    (process_account_emails true ([] : List (String × Bool)) 1 []
        ⟨none, 2, 1⟩ 100 107).1 = ⟨none, 2, 1⟩
    ∧ (process_account_emails true [("1", true)] 1 []
        ⟨none, 2, 1⟩ 100 107).1.last_check_at = some 107 :=
  ⟨((claim_C7_stats_on_success_failure [] 1 [] ⟨none, 2, 1⟩ 100 107).2.2.1 rfl).1,
   ((claim_C7_stats_on_success_failure [("1", true)] 1 [] ⟨none, 2, 1⟩
     100 107).2.2.2 (by decide)).1⟩

/-- C8: the automatic scheduler starts a pass for an account id in a cycle
exactly when the account is listed, active, and the elapsed time since its
recorded last check reaches its interval in seconds; at the boundary, with
a 15 minute interval, 840 elapsed seconds are not due and 900 are. -/
theorem claim_C8_scheduler_due (accounts : List SchedAccount)
    (last_auto_check : Nat → ℚ) (now : ℚ) (i : Nat) :
    (i ∈ run_automatic_checks accounts last_auto_check now ↔
      ∃ a ∈ accounts, a.id = i ∧ a.is_active = true ∧
        now - last_auto_check a.id ≥ (a.check_interval : ℚ) * 60)
    ∧ account_is_due 900 0 15 = true
    ∧ account_is_due 840 0 15 = false := by
  refine ⟨?_, by norm_num [account_is_due], by norm_num [account_is_due]⟩
  constructor
  · intro h
    simp only [run_automatic_checks, List.mem_map, List.mem_filter] at h
    obtain ⟨a, ⟨ha, hcond⟩, hid⟩ := h
    rw [Bool.and_eq_true] at hcond
    refine ⟨a, ha, hid, hcond.1, ?_⟩
    have := hcond.2
    simpa [account_is_due] using this
  · rintro ⟨a, ha, hid, hact, hdue⟩
    simp only [run_automatic_checks, List.mem_map, List.mem_filter]
    refine ⟨a, ⟨ha, ?_⟩, hid⟩
    rw [Bool.and_eq_true]
    exact ⟨hact, by simpa [account_is_due] using hdue⟩

/-- C9: disconnect never lets an exception escape for any connection
state, it always clears the held connection, and a second call on the
cleared state is a no-op performing no protocol action and raising
nothing. -/
theorem claim_C9_disconnect_safe_idempotent (conn : Option ImapConnection) :
    (∃ acts, disconnect conn = Except.ok (none, acts))
    ∧ disconnect none = Except.ok (none, ([] : List ConnAction)) := by
  refine ⟨?_, rfl⟩
  cases conn with
  | none => exact ⟨[], rfl⟩
  | some c => exact ⟨_, rfl⟩

/-- C10: in a pass the processed and spam counts equal exactly the number
of rows newly inserted into the table, spam counted only among those, the
cumulative counters grow by exactly those amounts, and when every fetched
message is already stored both counters gain zero. -/
theorem claim_C10_counters_count_new_rows_only (emails : List (String × Bool))
    (aid : Nat) (db : List (Nat × String)) (stats : AccountStats)
    (start_time now_time : Nat) :
    (process_account_emails true emails aid db stats start_time now_time).2.2.emails_processed
        = (process_account_emails true emails aid db stats start_time now_time).2.1.length
          - db.length
    ∧ (process_account_emails true emails aid db stats start_time now_time).2.2.spam_detected
        ≤ (process_account_emails true emails aid db stats start_time now_time).2.2.emails_processed
    ∧ (process_account_emails true emails aid db stats start_time now_time).1.total_emails_checked
        = stats.total_emails_checked
          + (process_account_emails true emails aid db stats start_time now_time).2.2.emails_processed
    ∧ (process_account_emails true emails aid db stats start_time now_time).1.total_spam_detected
        = stats.total_spam_detected
          + (process_account_emails true emails aid db stats start_time now_time).2.2.spam_detected
    ∧ ((∀ p ∈ emails, (aid, p.1) ∈ db) →
        (process_account_emails true emails aid db stats start_time now_time).2.2.emails_processed = 0
        ∧ (process_account_emails true emails aid db stats start_time now_time).2.2.spam_detected = 0
        ∧ (process_account_emails true emails aid db stats start_time now_time).1.total_emails_checked
            = stats.total_emails_checked
        ∧ (process_account_emails true emails aid db stats start_time now_time).1.total_spam_detected
            = stats.total_spam_detected) := by
  cases emails with
  | nil =>
    refine ⟨by simp [process_account_emails], by simp [process_account_emails],
      by simp [process_account_emails], by simp [process_account_emails], ?_⟩
    intro _
    simp [process_account_emails]
  | cons e rest =>
    have hlen := pef_len (a := aid) (e :: rest) db
    have hspam := pef_spam_le (a := aid) (e :: rest) db
    refine ⟨?_, hspam, rfl, rfl, ?_⟩
    · show (processEmailsFull aid (e :: rest) db).2.1
          = (processEmailsFull aid (e :: rest) db).1.length - db.length
      omega
    · intro hall
      have hno := pef_noop (e :: rest) db hall
      refine ⟨?_, ?_, ?_, ?_⟩
      · show (processEmailsFull aid (e :: rest) db).2.1 = 0
        simp [hno]
      · show (processEmailsFull aid (e :: rest) db).2.2 = 0
        simp [hno]
      · show stats.total_emails_checked + (processEmailsFull aid (e :: rest) db).2.1
            = stats.total_emails_checked
        simp [hno]
      · show stats.total_spam_detected + (processEmailsFull aid (e :: rest) db).2.2
            = stats.total_spam_detected
        simp [hno]

theorem claim_C10_counters_count_new_rows_only_witness :
    (process_account_emails true [("a", true)] 1 [(1, "a")]
        ⟨none, 5, 2⟩ 100 107).2.2.emails_processed = 0
    ∧ (process_account_emails true [("a", true)] 1 [(1, "a")]
        ⟨none, 5, 2⟩ 100 107).1.total_emails_checked = 5 :=
  ⟨((claim_C10_counters_count_new_rows_only [("a", true)] 1 [(1, "a")]
      ⟨none, 5, 2⟩ 100 107).2.2.2.2 (by decide)).1,
   ((claim_C10_counters_count_new_rows_only [("a", true)] 1 [(1, "a")]
      ⟨none, 5, 2⟩ 100 107).2.2.2.2 (by decide)).2.2.1⟩

end Guardmail
